import Mathlib

/-!
# cluster-gateway: the multi-cluster round tripper

A shallow embedding of `pkg/apis/cluster/transport/roundtripper.go`.

Modelling conventions.

* Go strings are Lean `String`s.  The only string operations of the file are
  `strings.TrimPrefix` with the one-byte prefix `"/"` and `strings.Join`; on these
  the byte view and the character view agree.
* `*http.Request` and `*url.URL` are pointers.  Requests and URLs live in a `Heap`;
  a pointer is an address into it, `new` appends a cell, a field assignment
  overwrites a cell.  A dereference of an address that is not allocated (Go: a nil
  pointer) is a panic, rendered as `none`.
* The delegate `http.RoundTripper` is an external collaborator.  It is a function
  from the heap and the request pointer it is handed to a `(response, error)`
  pair; every invocation is recorded in the `calls` log of the `World`.  A nil
  delegate is not modelled.
* `config.MetaApiGroupName` and `config.MetaApiVersionName` are constants of
  another package; they are the two fields of the parameter `config`.
-/

namespace multicluster

/-! ## Data model -/

/-- An address in one of the two stores of the heap. -/
abbrev Addr := Nat

/-- The constants of package `config` that the file reads. -/
structure config where
  MetaApiGroupName : String
  MetaApiVersionName : String
deriving DecidableEq, Repr

/-- The part of `context.Context` the round tripper can observe: the value stored
under the multi-cluster key, if any, and the remaining values. -/
structure Context where
  clusterName : Option String
  values : List (String × String)
deriving DecidableEq, Repr

/-- Go `url.URL` (the fields that a request URL carries). -/
structure URL where
  Scheme : String
  Host : String
  Path : String
  RawPath : String
  RawQuery : String
  Fragment : String
deriving DecidableEq, Repr

/-- Go `http.Request`.  `URL` is a pointer, nil when `none`. -/
structure Request where
  Method : String
  URL : Option Addr
  Header : List (String × List String)
  Host : String
  ctx : Context
deriving DecidableEq, Repr

/-- Go `http.Response`, as far as a caller can tell two responses apart. -/
structure Response where
  StatusCode : Nat
  Body : String
deriving DecidableEq, Repr

/-- A Go `error` value, identified by its message. -/
structure GoError where
  msg : String
deriving DecidableEq, Repr

/-- The `(*http.Response, error)` pair of `RoundTrip`; `none` is nil. -/
abbrev Result := Option Response × Option GoError

/-- The store of requests and the store of URLs. -/
structure Heap where
  reqs : List Request
  urls : List URL
deriving DecidableEq, Repr

/-- One invocation of the delegate: the pointer it was handed and the heap it
could read through that pointer. -/
structure Call where
  req : Addr
  heap : Heap
deriving DecidableEq, Repr

/-- The heap together with the log of delegate invocations, oldest first. -/
structure World where
  heap : Heap
  calls : List Call
deriving DecidableEq, Repr

/-- Go `http.RoundTripper`: the delegate reads the request it is handed. -/
abbrev RoundTripper := Heap → Addr → Result

/-- Go `clusterGatewayRoundTripper`.  `host` is a `*string` and `filter` a func
value; both are nil when `none`. -/
structure clusterGatewayRoundTripper where
  delegate : RoundTripper
  fallback : Bool
  host : Option String
  filter : Option (String → Bool)

/-! ## Heap primitives -/

/-- Read the request at an address. -/
def Heap.loadReq (h : Heap) (a : Addr) : Option Request := h.reqs[a]?

/-- Read the URL at an address. -/
def Heap.loadURL (h : Heap) (a : Addr) : Option URL := h.urls[a]?

/-- Overwrite the request at an address. -/
def Heap.storeReq (h : Heap) (a : Addr) (r : Request) : Heap :=
  { h with reqs := h.reqs.set a r }

/-- Overwrite the URL at an address. -/
def Heap.storeURL (h : Heap) (a : Addr) (u : URL) : Heap :=
  { h with urls := h.urls.set a u }

/-- Allocate a request cell; the new address is the next free one. -/
def Heap.newReq (h : Heap) (r : Request) : Addr × Heap :=
  (h.reqs.length, { h with reqs := h.reqs ++ [r] })

/-- Allocate a URL cell. -/
def Heap.newURL (h : Heap) (u : URL) : Addr × Heap :=
  (h.urls.length, { h with urls := h.urls ++ [u] })

/-! ## Library functions used by the file -/

/-- Go `strings.HasPrefix`: `len(s) >= len(prefix) && s[:len(prefix)] == prefix`. -/
def strings.HasPrefix (s pre : String) : Bool :=
  decide (s.data.length ≥ pre.data.length) && (s.data.take pre.data.length == pre.data)

/-- Go `strings.TrimPrefix`: `s` without the leading `prefix`, or `s` itself when
it does not start with it. -/
def strings.TrimPrefix (s pre : String) : String :=
  if strings.HasPrefix s pre then String.mk (s.data.drop pre.data.length) else s

/-- Go `strings.Join`. -/
def strings.Join : List String → String → String
  | [], _ => ""
  | [a], _ => a
  | a :: b :: rest, sep => a ++ sep ++ strings.Join (b :: rest) sep

/-- Go `fmt.Errorf` with a format string that has no verbs. -/
def fmt.Errorf (format : String) : GoError := ⟨format⟩

/-- Go `(*http.Request).Context`: dereferences the request. -/
def Request.Context (h : Heap) (request : Addr) : Option Context :=
  (h.loadReq request).map (fun r => r.ctx)

/-- Go `cloneURL` of `net/http`: nil for nil, otherwise a fresh copy of the URL. -/
def cloneURL (h : Heap) (u : Option Addr) : Option (Option Addr × Heap) :=
  match u with
  | none => some (none, h)
  | some a =>
    match h.loadURL a with
    | none => none
    | some v =>
      let (a2, h2) := h.newURL v
      some (some a2, h2)

/-- Go `(*http.Request).Clone` of `net/http`: a deep copy of the request with its
context changed to `ctx`; the copy has a URL of its own. -/
def Request.Clone (h : Heap) (request : Addr) (ctx : multicluster.Context) :
    Option (Addr × Heap) :=
  match h.loadReq request with
  | none => none
  | some r =>
    match cloneURL h r.URL with
    | none => none
    | some (u2, h1) => some (h1.newReq { r with ctx := ctx, URL := u2 })

/-- Modelled from the spec: `GetMultiClusterContext` is defined in another file of
the package, absent here.  It resolves the routing hint, an optional string
attached to the request's execution context, and reports whether one is present;
an empty hint is present. -/
def GetMultiClusterContext (ctx : Context) : String × Bool :=
  match ctx.clusterName with
  | some clusterName => (clusterName, true)
  | none => ("", false)

/-! ## The round tripper -/

/-- Source `formatProxyURL`. -/
def formatProxyURL (cfg : config) (clusterName originalPath : String) : String :=
  let originalPath := strings.TrimPrefix originalPath "/"
  strings.Join
    ["/apis",
     cfg.MetaApiGroupName,
     cfg.MetaApiVersionName,
     "clustergateways",
     clusterName,
     "proxy",
     originalPath] "/"

/-- The call `c.delegate.RoundTrip(request)`: the delegate's answer, and the world
with the invocation logged. -/
def delegateRoundTrip (c : clusterGatewayRoundTripper) (request : Addr) (w : World) :
    Result × World :=
  (c.delegate w.heap request, { w with calls := w.calls ++ [⟨request, w.heap⟩] })

/-- The statement `request.URL.Path = formatProxyURL(clusterName, request.URL.Path)`. -/
def assignProxyPath (cfg : config) (clusterName : String) (request : Addr) (h : Heap) :
    Option Heap :=
  match h.loadReq request with
  | none => none
  | some r =>
    match r.URL with
    | none => none
    | some ua =>
      match h.loadURL ua with
      | none => none
      | some u => some (h.storeURL ua { u with Path := formatProxyURL cfg clusterName u.Path })

/-- The statement `request.Host = *c.host`. -/
def assignHost (host : String) (request : Addr) (h : Heap) : Option Heap :=
  match h.loadReq request with
  | none => none
  | some r => some (h.storeReq request { r with Host := host })

/-- Source `(*clusterGatewayRoundTripper).RoundTrip`.  `none` is a panic. -/
def RoundTrip (cfg : config) (c : clusterGatewayRoundTripper) (request : Addr) (w : World) :
    Option (Result × World) :=
  match Request.Context w.heap request with
  | none => none
  | some ctx =>
    let (clusterName, exists_) := GetMultiClusterContext ctx
    if !exists_ then
      if !c.fallback then
        some ((none, some (fmt.Errorf "missing cluster name in the request context")), w)
      else
        some (delegateRoundTrip c request w)
    else if (match c.filter with
             | some filter => !filter clusterName
             | none => false) then
      some (delegateRoundTrip c request w)
    else
      match Request.Clone w.heap request ctx with
      | none => none
      | some (request, h1) =>
        match assignProxyPath cfg clusterName request h1 with
        | none => none
        | some h2 =>
          match (match c.host with
                 | some host => assignHost host request h2
                 | none => some h2) with
          | none => none
          | some h3 => some (delegateRoundTrip c request { w with heap := h3 })


/-! ## Construction -/

/-- Source `clusterGatewayRoundTripperOption`, a `func(*clusterGatewayRoundTripper)`:
what the call does to the struct behind the pointer. -/
abbrev clusterGatewayRoundTripperOption :=
  clusterGatewayRoundTripper → clusterGatewayRoundTripper

/-- Source interface `ClusterGatewayRoundTripperOption`.  Its one method takes a
pointer to the unexported struct, and the func type above is its one implementation. -/
abbrev ClusterGatewayRoundTripperOption := clusterGatewayRoundTripperOption

/-- Source method `ApplyToClusterGatewayRoundTripper`: `op(rt)`. -/
def ApplyToClusterGatewayRoundTripper (op : ClusterGatewayRoundTripperOption)
    (rt : clusterGatewayRoundTripper) : clusterGatewayRoundTripper :=
  op rt

/-- Source `ClusterGatewayRoundTripperWithHost`: `rt.host = pointer.String(host)`. -/
def ClusterGatewayRoundTripperWithHost (host : String) : ClusterGatewayRoundTripperOption :=
  fun rt => { rt with host := some host }

/-- Source `ClusterGatewayRoundTripperWithFilter`: `rt.filter = filter`.  The func
value handed in may be nil. -/
def ClusterGatewayRoundTripperWithFilter (filter : Option (String → Bool)) :
    ClusterGatewayRoundTripperOption :=
  fun rt => { rt with filter := filter }

/-- Source `NewClusterGatewayRoundTripper`; the fields left out of the composite
literal have their zero value, nil. -/
def NewClusterGatewayRoundTripper (delegate : RoundTripper) : clusterGatewayRoundTripper :=
  { delegate := delegate,
    fallback := true,
    host := none,
    filter := none }

/-- Source `NewStrictClusterGatewayRoundTripper`. -/
def NewStrictClusterGatewayRoundTripper (delegate : RoundTripper) (fallback : Bool) :
    clusterGatewayRoundTripper :=
  { delegate := delegate,
    fallback := fallback,
    host := none,
    filter := none }

/-- Source `NewClusterGatewayRoundTripperWrapper`: the returned wrapper function. -/
def NewClusterGatewayRoundTripperWrapper (options : List ClusterGatewayRoundTripperOption) :
    RoundTripper → clusterGatewayRoundTripper :=
  fun rt =>
    let wrapped := NewClusterGatewayRoundTripper rt
    options.foldl (fun wrapped op => ApplyToClusterGatewayRoundTripper op wrapped) wrapped

/-! ## Vocabulary of the specification -/

/-- The original path with one leading `/` removed if it had one, in the words of
the specification (no reference to `strings.TrimPrefix`). -/
def stripLeadingSlash (p : String) : String :=
  match p.data with
  | '/' :: rest => String.mk rest
  | _ => p

/-- A hint is accepted when no filter is configured or the filter returns true. -/
def accepted (c : clusterGatewayRoundTripper) (hint : String) : Bool :=
  match c.filter with
  | none => true
  | some f => f hint

/-- The URL path of the request at an address, read through its URL pointer. -/
def Heap.pathOf (h : Heap) (a : Addr) : Option String :=
  match h.loadReq a with
  | none => none
  | some r =>
    match r.URL with
    | none => none
    | some ua => (h.loadURL ua).map (fun u => u.Path)

/-- The `Host` field of the request at an address. -/
def Heap.hostOf (h : Heap) (a : Addr) : Option String :=
  (h.loadReq a).map (fun r => r.Host)

/-- The headers of the request at an address. -/
def Heap.headerOf (h : Heap) (a : Addr) : Option (List (String × List String)) :=
  (h.loadReq a).map (fun r => r.Header)

/-- The error the round tripper raises itself. -/
def MissingRoutingContext : GoError :=
  ⟨"missing cluster name in the request context"⟩

/-- The heap in which the delegate sees the rewritten clone. -/
def rewrittenHeap (cfg : config) (c : clusterGatewayRoundTripper) (h : Heap)
    (r : Request) (u : URL) (hint : String) : Heap :=
  { reqs := h.reqs ++ [{ r with URL := some h.urls.length,
                                Host := match c.host with
                                        | some host => host
                                        | none => r.Host }],
    urls := h.urls ++ [{ u with Path := formatProxyURL cfg hint u.Path }] }

/-- The two named option kinds of the construction API. -/
inductive NamedOption where
  | withHost (host : String)
  | withFilter (filter : Option (String → Bool))

/-- The option value a named option stands for. -/
def NamedOption.build : NamedOption → ClusterGatewayRoundTripperOption
  | NamedOption.withHost host => ClusterGatewayRoundTripperWithHost host
  | NamedOption.withFilter filter => ClusterGatewayRoundTripperWithFilter filter

/-- The value of the last host option of a list, if it has one. -/
def lastHost : List NamedOption → Option String
  | [] => none
  | op :: rest =>
    match lastHost rest with
    | some host => some host
    | none =>
      match op with
      | NamedOption.withHost host => some host
      | NamedOption.withFilter _ => none

/-- The predicate (a func value, nil when `none`) of the last filter option of a
list, if it has one. -/
def lastFilter : List NamedOption → Option (Option (String → Bool))
  | [] => none
  | op :: rest =>
    match lastFilter rest with
    | some filter => some filter
    | none =>
      match op with
      | NamedOption.withHost _ => none
      | NamedOption.withFilter filter => some filter

/-- The same request with no hint attached: the request cell at the address with
the multi-cluster value taken out of its context, all else as it is. -/
def World.withoutHint (w : World) (request : Addr) : World :=
  match w.heap.loadReq request with
  | none => w
  | some r =>
    { w with heap := w.heap.storeReq request
                       { r with ctx := { r.ctx with clusterName := none } } }

/-- The double-prefixed path of a request routed twice. -/
def doublePrefixed (cfg : config) (hint p : String) : String :=
  "/apis/" ++ cfg.MetaApiGroupName ++ "/" ++ cfg.MetaApiVersionName ++
    "/clustergateways/" ++ hint ++ "/proxy/apis/" ++ cfg.MetaApiGroupName ++ "/" ++
    cfg.MetaApiVersionName ++ "/clustergateways/" ++ hint ++ "/proxy/" ++
    stripLeadingSlash p

/-! ## Sample data -/

/-- The constants of the deployed gateway. -/
def sampleConfig : config := ⟨"cluster.core.oam.dev", "v1alpha1"⟩

/-- A request URL. -/
def sampleURL : URL := ⟨"https", "kube.example", "/api/v1/pods", "", "watch=1", ""⟩

/-- A request whose context carries the given hint. -/
def sampleRequest (hint : Option String) : Request :=
  ⟨"GET", some 0, [("Accept", ["*/*"])], "kube.example", ⟨hint, []⟩⟩

/-- A world holding the sample request at address 0, the delegate not yet called. -/
def sampleWorld (hint : Option String) : World :=
  ⟨⟨[sampleRequest hint], [sampleURL]⟩, []⟩

/-- A delegate that answers 200 with the path it was asked for, and fails on a
request without URL. -/
def sampleDelegate : RoundTripper := fun h a =>
  match h.pathOf a with
  | some p => (some ⟨200, p⟩, none)
  | none => (none, some ⟨"no url"⟩)

/-- A router over the sample delegate. -/
def sampleRouter (fallback : Bool) (host : Option String) (filter : Option (String → Bool)) :
    clusterGatewayRoundTripper :=
  ⟨sampleDelegate, fallback, host, filter⟩

/-- A filter that keeps the local cluster out of the proxy. -/
def notLocal (clusterName : String) : Bool := clusterName != "local"

/-! ## Lemmas on the string functions -/

theorem TrimPrefix_slash (p : String) :
    strings.TrimPrefix p "/" = stripLeadingSlash p := by
  obtain ⟨l⟩ := p
  cases l with
  | nil => rfl
  | cons a t =>
    by_cases ha : a = '/'
    · subst ha
      simp [strings.TrimPrefix, strings.HasPrefix, stripLeadingSlash]
    · have h1 : strings.HasPrefix (String.mk (a :: t)) "/" = false := by
        simp [strings.HasPrefix, ha]
      have h2 : stripLeadingSlash (String.mk (a :: t)) = String.mk (a :: t) := by
        unfold stripLeadingSlash
        split
        · rename_i rest heq
          simp at heq
          exact absurd heq.1 ha
        · rfl
      rw [h2]
      simp [strings.TrimPrefix, h1]

theorem formatProxyURL_eq (cfg : config) (clusterName originalPath : String) :
    formatProxyURL cfg clusterName originalPath =
      "/apis/" ++ cfg.MetaApiGroupName ++ "/" ++ cfg.MetaApiVersionName ++
        "/clustergateways/" ++ clusterName ++ "/proxy/" ++ stripLeadingSlash originalPath := by
  rw [← TrimPrefix_slash]
  apply String.ext
  simp [formatProxyURL, strings.Join, String.data_append]

theorem stripLeadingSlash_slash (t : List Char) :
    stripLeadingSlash (String.mk ('/' :: t)) = String.mk t := by
  simp [stripLeadingSlash]

theorem stripLeadingSlash_of_no_slash (p : String) (h : p.data.head? ≠ some '/') :
    stripLeadingSlash p = p := by
  unfold stripLeadingSlash
  split
  · rename_i rest heq
    rw [heq] at h
    exact absurd rfl h
  · rfl

/-! ## Lemmas on the heap -/

theorem set_length_append {α : Type} (l : List α) (a b : α) :
    (l ++ [a]).set l.length b = l ++ [b] := by
  induction l with
  | nil => rfl
  | cons x t ih => simp [List.set, ih]

theorem getElem?_length_append {α : Type} (l : List α) (a : α) :
    (l ++ [a])[l.length]? = some a := by
  induction l with
  | nil => rfl
  | cons x t ih => simp

theorem getElem?_append_of_some {α : Type} (l : List α) (a v : α) (i : Nat)
    (h : l[i]? = some v) : (l ++ [a])[i]? = some v := by
  have hi : i < l.length := by
    by_contra hc
    rw [List.getElem?_eq_none (Nat.le_of_not_lt hc)] at h
    exact Option.noConfusion h
  rw [List.getElem?_append_left hi]
  exact h

/-! ## The branches of `RoundTrip` -/

theorem RoundTrip_strict (cfg : config) (c : clusterGatewayRoundTripper) (request : Addr)
    (w : World) (r : Request) (hr : w.heap.loadReq request = some r)
    (hh : r.ctx.clusterName = none) (hf : c.fallback = false) :
    RoundTrip cfg c request w = some ((none, some MissingRoutingContext), w) := by
  simp [RoundTrip, Request.Context, hr, GetMultiClusterContext, hh, hf, fmt.Errorf,
    MissingRoutingContext]

theorem RoundTrip_fallback (cfg : config) (c : clusterGatewayRoundTripper) (request : Addr)
    (w : World) (r : Request) (hr : w.heap.loadReq request = some r)
    (hh : r.ctx.clusterName = none) (hf : c.fallback = true) :
    RoundTrip cfg c request w = some (delegateRoundTrip c request w) := by
  simp [RoundTrip, Request.Context, hr, GetMultiClusterContext, hh, hf]

theorem RoundTrip_filtered (cfg : config) (c : clusterGatewayRoundTripper) (request : Addr)
    (w : World) (r : Request) (hint : String) (hr : w.heap.loadReq request = some r)
    (hh : r.ctx.clusterName = some hint) (ha : accepted c hint = false) :
    RoundTrip cfg c request w = some (delegateRoundTrip c request w) := by
  cases hfl : c.filter with
  | none => simp [accepted, hfl] at ha
  | some f =>
    simp only [accepted, hfl] at ha
    simp [RoundTrip, Request.Context, hr, GetMultiClusterContext, hh, hfl, ha]

theorem RoundTrip_rewrite (cfg : config) (c : clusterGatewayRoundTripper) (request : Addr)
    (w : World) (r : Request) (ua : Addr) (u : URL) (hint : String)
    (hr : w.heap.loadReq request = some r) (hu : r.URL = some ua)
    (hv : w.heap.loadURL ua = some u)
    (hh : r.ctx.clusterName = some hint) (ha : accepted c hint = true) :
    RoundTrip cfg c request w =
      some (delegateRoundTrip c w.heap.reqs.length
        { w with heap := rewrittenHeap cfg c w.heap r u hint }) := by
  have hflt : (match c.filter with
               | some filter => !filter hint
               | none => false) = false := by
    cases hfl : c.filter with
    | none => rfl
    | some f =>
      simp only [accepted, hfl] at ha
      simp [ha]
  simp only [Heap.loadReq] at hr
  simp only [Heap.loadURL] at hv
  cases hhost : c.host with
  | none =>
    simp [RoundTrip, Request.Context, hr, GetMultiClusterContext, hh, hflt, Request.Clone,
      cloneURL, hu, hv, Heap.newURL, Heap.newReq, assignProxyPath, Heap.loadReq,
      Heap.loadURL, Heap.storeURL, getElem?_length_append, set_length_append, hhost,
      rewrittenHeap]
  | some host =>
    simp [RoundTrip, Request.Context, hr, GetMultiClusterContext, hh, hflt, Request.Clone,
      cloneURL, hu, hv, Heap.newURL, Heap.newReq, assignProxyPath, Heap.loadReq,
      Heap.loadURL, Heap.storeURL, Heap.storeReq, assignHost, getElem?_length_append,
      set_length_append, hhost, rewrittenHeap]

/-! ## What the delegate sees of the rewritten clone -/

theorem rewrittenHeap_pathOf (cfg : config) (c : clusterGatewayRoundTripper) (h : Heap)
    (r : Request) (u : URL) (hint : String) :
    (rewrittenHeap cfg c h r u hint).pathOf h.reqs.length =
      some (formatProxyURL cfg hint u.Path) := by
  simp [rewrittenHeap, Heap.pathOf, Heap.loadReq, Heap.loadURL, getElem?_length_append]

theorem rewrittenHeap_hostOf (cfg : config) (c : clusterGatewayRoundTripper) (h : Heap)
    (r : Request) (u : URL) (hint : String) :
    (rewrittenHeap cfg c h r u hint).hostOf h.reqs.length =
      some (match c.host with
            | some host => host
            | none => r.Host) := by
  simp [rewrittenHeap, Heap.hostOf, Heap.loadReq, getElem?_length_append]

theorem rewrittenHeap_loadReq (cfg : config) (c : clusterGatewayRoundTripper) (h : Heap)
    (r : Request) (u : URL) (hint : String) (a : Addr) (v : Request)
    (hv : h.loadReq a = some v) :
    (rewrittenHeap cfg c h r u hint).loadReq a = some v := by
  simp only [Heap.loadReq] at hv
  simp only [rewrittenHeap, Heap.loadReq]
  exact getElem?_append_of_some _ _ _ _ hv

theorem rewrittenHeap_loadURL (cfg : config) (c : clusterGatewayRoundTripper) (h : Heap)
    (r : Request) (u : URL) (hint : String) (a : Addr) (v : URL)
    (hv : h.loadURL a = some v) :
    (rewrittenHeap cfg c h r u hint).loadURL a = some v := by
  simp only [Heap.loadURL] at hv
  simp only [rewrittenHeap, Heap.loadURL]
  exact getElem?_append_of_some _ _ _ _ hv

theorem rewrittenHeap_pathOf_old (cfg : config) (c : clusterGatewayRoundTripper) (h : Heap)
    (r : Request) (u : URL) (hint : String) (a : Addr) (v : Request) (ua : Addr) (vu : URL)
    (hv : h.loadReq a = some v) (hu : v.URL = some ua) (hvu : h.loadURL ua = some vu) :
    (rewrittenHeap cfg c h r u hint).pathOf a = some vu.Path := by
  simp [Heap.pathOf, rewrittenHeap_loadReq cfg c h r u hint a v hv, hu,
    rewrittenHeap_loadURL cfg c h r u hint ua vu hvu]

theorem rewrittenHeap_hostOf_old (cfg : config) (c : clusterGatewayRoundTripper) (h : Heap)
    (r : Request) (u : URL) (hint : String) (a : Addr) (v : Request)
    (hv : h.loadReq a = some v) :
    (rewrittenHeap cfg c h r u hint).hostOf a = some v.Host := by
  simp [Heap.hostOf, rewrittenHeap_loadReq cfg c h r u hint a v hv]

/-- The four branches: on a request with an initialised URL `RoundTrip` returns, and
it does one of three things. -/
theorem RoundTrip_branches (cfg : config) (c : clusterGatewayRoundTripper)
    (request : Addr) (w : World) (r : Request) (ua : Addr) (u : URL)
    (hr : w.heap.loadReq request = some r) (hu : r.URL = some ua)
    (hv : w.heap.loadURL ua = some u) :
    (r.ctx.clusterName = none ∧ c.fallback = false ∧
      RoundTrip cfg c request w = some ((none, some MissingRoutingContext), w)) ∨
    (¬ (r.ctx.clusterName = none ∧ c.fallback = false) ∧
      RoundTrip cfg c request w = some (delegateRoundTrip c request w)) ∨
    (∃ hint, r.ctx.clusterName = some hint ∧ accepted c hint = true ∧
      RoundTrip cfg c request w =
        some (delegateRoundTrip c w.heap.reqs.length
          { w with heap := rewrittenHeap cfg c w.heap r u hint })) := by
  cases hh : r.ctx.clusterName with
  | none =>
    cases hf : c.fallback with
    | false => exact Or.inl ⟨rfl, rfl, RoundTrip_strict cfg c request w r hr hh hf⟩
    | true =>
      exact Or.inr (Or.inl ⟨fun hn => Bool.noConfusion hn.2,
        RoundTrip_fallback cfg c request w r hr hh hf⟩)
  | some hint =>
    cases ha : accepted c hint with
    | false =>
      exact Or.inr (Or.inl ⟨fun hn => Option.noConfusion hn.1,
        RoundTrip_filtered cfg c request w r hint hr hh ha⟩)
    | true =>
      exact Or.inr (Or.inr ⟨hint, rfl, ha,
        RoundTrip_rewrite cfg c request w r ua u hint hr hu hv hh ha⟩)

/-! ## The claims -/

/-- C1: a request whose hint is accepted (no filter, or the filter returns true) is
forwarded to the delegate with the URL path
`/apis/<group>/<version>/clustergateways/<hint>/proxy/<path>`, where `<path>` is the
original path with one leading slash removed if it had one and `<hint>` is the hint
as it is, for every string. -/
theorem RoundTrip_accepted_hint_path (cfg : config) (c : clusterGatewayRoundTripper)
    (request : Addr) (w : World) (r : Request) (ua : Addr) (u : URL) (hint : String)
    (hr : w.heap.loadReq request = some r) (hu : r.URL = some ua)
    (hv : w.heap.loadURL ua = some u)
    (hh : r.ctx.clusterName = some hint) (ha : accepted c hint = true) :
    ∃ res w1 fwd, RoundTrip cfg c request w = some (res, w1) ∧
      w1.calls = w.calls ++ [fwd] ∧
      fwd.heap.pathOf fwd.req =
        some ("/apis/" ++ cfg.MetaApiGroupName ++ "/" ++ cfg.MetaApiVersionName ++
          "/clustergateways/" ++ hint ++ "/proxy/" ++ stripLeadingSlash u.Path) := by
  refine ⟨_, _, ⟨w.heap.reqs.length, rewrittenHeap cfg c w.heap r u hint⟩,
    RoundTrip_rewrite cfg c request w r ua u hint hr hu hv hh ha, rfl, ?_⟩
  rw [← formatProxyURL_eq]
  exact rewrittenHeap_pathOf cfg c w.heap r u hint

theorem RoundTrip_accepted_hint_path_witness :
    (sampleWorld (some "cluster-a")).heap.loadReq 0 = some (sampleRequest (some "cluster-a")) ∧
    accepted (sampleRouter false none (some notLocal)) "cluster-a" = true ∧
    ∃ res w1 fwd,
      RoundTrip sampleConfig (sampleRouter false none (some notLocal)) 0
        (sampleWorld (some "cluster-a")) = some (res, w1) ∧
      w1.calls = (sampleWorld (some "cluster-a")).calls ++ [fwd] ∧
      fwd.heap.pathOf fwd.req =
        some ("/apis/" ++ sampleConfig.MetaApiGroupName ++ "/" ++
          sampleConfig.MetaApiVersionName ++ "/clustergateways/" ++ "cluster-a" ++
          "/proxy/" ++ stripLeadingSlash sampleURL.Path) :=
  ⟨rfl, by decide,
    RoundTrip_accepted_hint_path sampleConfig (sampleRouter false none (some notLocal)) 0
      (sampleWorld (some "cluster-a")) (sampleRequest (some "cluster-a")) 0 sampleURL
      "cluster-a" rfl rfl rfl rfl (by decide)⟩

/-- C2: a request without hint, under the fallback policy, is handed to the delegate
as it is: the same request object in an unchanged heap (so the same path, host and
headers), whatever host override and filter are configured; the delegate is called
once and its answer is returned. -/
theorem RoundTrip_missing_hint_fallback (cfg : config) (c : clusterGatewayRoundTripper)
    (request : Addr) (w : World) (r : Request)
    (hr : w.heap.loadReq request = some r)
    (hh : r.ctx.clusterName = none) (hf : c.fallback = true) :
    ∃ w1 fwd, RoundTrip cfg c request w = some (c.delegate w.heap request, w1) ∧
      w1.calls = w.calls ++ [fwd] ∧ fwd.req = request ∧ fwd.heap = w.heap ∧
      w1.heap = w.heap ∧
      fwd.heap.pathOf fwd.req = w.heap.pathOf request ∧
      fwd.heap.hostOf fwd.req = w.heap.hostOf request ∧
      fwd.heap.headerOf fwd.req = w.heap.headerOf request :=
  ⟨_, ⟨request, w.heap⟩, RoundTrip_fallback cfg c request w r hr hh hf,
    rfl, rfl, rfl, rfl, rfl, rfl, rfl⟩

theorem RoundTrip_missing_hint_fallback_witness :
    (sampleWorld none).heap.loadReq 0 = some (sampleRequest none) ∧
    ∃ w1 fwd,
      RoundTrip sampleConfig (sampleRouter true (some "gateway.example") (some notLocal)) 0
        (sampleWorld none) = some (sampleDelegate (sampleWorld none).heap 0, w1) ∧
      w1.calls = (sampleWorld none).calls ++ [fwd] ∧ fwd.req = 0 ∧
      fwd.heap = (sampleWorld none).heap ∧ w1.heap = (sampleWorld none).heap ∧
      fwd.heap.pathOf fwd.req = (sampleWorld none).heap.pathOf 0 ∧
      fwd.heap.hostOf fwd.req = (sampleWorld none).heap.hostOf 0 ∧
      fwd.heap.headerOf fwd.req = (sampleWorld none).heap.headerOf 0 :=
  ⟨rfl,
    RoundTrip_missing_hint_fallback sampleConfig
      (sampleRouter true (some "gateway.example") (some notLocal)) 0 (sampleWorld none)
      (sampleRequest none) rfl rfl rfl⟩

/-- C3: a request without hint, with the fallback policy disabled, gets no response
and the missing-routing-context error, and the world is left as it was: the delegate
is not called. -/
theorem RoundTrip_missing_hint_strict (cfg : config) (c : clusterGatewayRoundTripper)
    (request : Addr) (w : World) (r : Request)
    (hr : w.heap.loadReq request = some r)
    (hh : r.ctx.clusterName = none) (hf : c.fallback = false) :
    ∃ w1, RoundTrip cfg c request w =
        some ((none, some ⟨"missing cluster name in the request context"⟩), w1) ∧
      w1.calls = w.calls ∧ w1.heap = w.heap :=
  ⟨w, RoundTrip_strict cfg c request w r hr hh hf, rfl, rfl⟩

theorem RoundTrip_missing_hint_strict_witness :
    (sampleWorld none).heap.loadReq 0 = some (sampleRequest none) ∧
    ∃ w1,
      RoundTrip sampleConfig (sampleRouter false (some "gateway.example") none) 0
        (sampleWorld none) =
        some ((none, some ⟨"missing cluster name in the request context"⟩), w1) ∧
      w1.calls = (sampleWorld none).calls ∧ w1.heap = (sampleWorld none).heap :=
  ⟨rfl,
    RoundTrip_missing_hint_strict sampleConfig
      (sampleRouter false (some "gateway.example") none) 0 (sampleWorld none)
      (sampleRequest none) rfl rfl rfl⟩

/-- C4: when a filter is configured and returns false for the hint, then under
either fallback policy and with or without host override the delegate is handed the
original request object in an unchanged heap (path and host not rewritten), it is
called once, and its answer is what `RoundTrip` returns: the outcome of the
missing-hint case under fallback. -/
theorem RoundTrip_filtered_hint (cfg : config) (c : clusterGatewayRoundTripper)
    (request : Addr) (w : World) (r : Request) (hint : String) (f : String → Bool)
    (hr : w.heap.loadReq request = some r)
    (hh : r.ctx.clusterName = some hint)
    (hc : c.filter = some f) (hf : f hint = false) :
    ∃ w1 fwd, RoundTrip cfg c request w = some (c.delegate w.heap request, w1) ∧
      w1.calls = w.calls ++ [fwd] ∧ fwd.req = request ∧ fwd.heap = w.heap ∧
      w1.heap = w.heap ∧
      fwd.heap.pathOf fwd.req = w.heap.pathOf request ∧
      fwd.heap.hostOf fwd.req = w.heap.hostOf request := by
  have ha : accepted c hint = false := by simp [accepted, hc, hf]
  exact ⟨_, ⟨request, w.heap⟩, RoundTrip_filtered cfg c request w r hint hr hh ha,
    rfl, rfl, rfl, rfl, rfl, rfl⟩

theorem RoundTrip_filtered_hint_witness :
    (sampleWorld (some "local")).heap.loadReq 0 = some (sampleRequest (some "local")) ∧
    notLocal "local" = false ∧
    ∃ w1 fwd,
      RoundTrip sampleConfig (sampleRouter false (some "gateway.example") (some notLocal)) 0
        (sampleWorld (some "local")) =
        some (sampleDelegate (sampleWorld (some "local")).heap 0, w1) ∧
      w1.calls = (sampleWorld (some "local")).calls ++ [fwd] ∧ fwd.req = 0 ∧
      fwd.heap = (sampleWorld (some "local")).heap ∧
      w1.heap = (sampleWorld (some "local")).heap ∧
      fwd.heap.pathOf fwd.req = (sampleWorld (some "local")).heap.pathOf 0 ∧
      fwd.heap.hostOf fwd.req = (sampleWorld (some "local")).heap.hostOf 0 :=
  ⟨rfl, by decide,
    RoundTrip_filtered_hint sampleConfig
      (sampleRouter false (some "gateway.example") (some notLocal)) 0
      (sampleWorld (some "local")) (sampleRequest (some "local")) "local" notLocal
      rfl rfl rfl (by decide)⟩

/-- C5: for an accepted hint, the forwarded request has as host the override when
one is configured and the host of the original request otherwise; its path is the
rewritten path, the one the same router without override forwards. -/
theorem RoundTrip_host_override (cfg : config) (c : clusterGatewayRoundTripper)
    (request : Addr) (w : World) (r : Request) (ua : Addr) (u : URL) (hint : String)
    (hr : w.heap.loadReq request = some r) (hu : r.URL = some ua)
    (hv : w.heap.loadURL ua = some u)
    (hh : r.ctx.clusterName = some hint) (ha : accepted c hint = true) :
    ∃ res w1 fwd res0 w0 fwd0,
      RoundTrip cfg c request w = some (res, w1) ∧ w1.calls = w.calls ++ [fwd] ∧
      RoundTrip cfg { c with host := none } request w = some (res0, w0) ∧
      w0.calls = w.calls ++ [fwd0] ∧
      (∀ host, c.host = some host → fwd.heap.hostOf fwd.req = some host) ∧
      (c.host = none → fwd.heap.hostOf fwd.req = some r.Host) ∧
      fwd0.heap.hostOf fwd0.req = some r.Host ∧
      fwd.heap.pathOf fwd.req = fwd0.heap.pathOf fwd0.req ∧
      fwd.heap.pathOf fwd.req = some (formatProxyURL cfg hint u.Path) := by
  have ha0 : accepted { c with host := none } hint = true := ha
  refine ⟨_, _, ⟨w.heap.reqs.length, rewrittenHeap cfg c w.heap r u hint⟩, _, _,
    ⟨w.heap.reqs.length, rewrittenHeap cfg { c with host := none } w.heap r u hint⟩,
    RoundTrip_rewrite cfg c request w r ua u hint hr hu hv hh ha, rfl,
    RoundTrip_rewrite cfg { c with host := none } request w r ua u hint hr hu hv hh ha0, rfl,
    ?_, ?_, ?_, ?_, ?_⟩
  · intro host hhost
    simp only [rewrittenHeap_hostOf, hhost]
  · intro hhost
    simp only [rewrittenHeap_hostOf, hhost]
  · simp only [rewrittenHeap_hostOf]
  · simp only [rewrittenHeap_pathOf]
  · simp only [rewrittenHeap_pathOf]

theorem RoundTrip_host_override_witness :
    (sampleWorld (some "cluster-a")).heap.loadReq 0 = some (sampleRequest (some "cluster-a")) ∧
    accepted (sampleRouter true (some "gateway.example") none) "cluster-a" = true ∧
    ∃ res w1 fwd res0 w0 fwd0,
      RoundTrip sampleConfig (sampleRouter true (some "gateway.example") none) 0
        (sampleWorld (some "cluster-a")) = some (res, w1) ∧
      w1.calls = (sampleWorld (some "cluster-a")).calls ++ [fwd] ∧
      RoundTrip sampleConfig
        { sampleRouter true (some "gateway.example") none with host := none } 0
        (sampleWorld (some "cluster-a")) = some (res0, w0) ∧
      w0.calls = (sampleWorld (some "cluster-a")).calls ++ [fwd0] ∧
      (∀ host, (sampleRouter true (some "gateway.example") none).host = some host →
        fwd.heap.hostOf fwd.req = some host) ∧
      ((sampleRouter true (some "gateway.example") none).host = none →
        fwd.heap.hostOf fwd.req = some (sampleRequest (some "cluster-a")).Host) ∧
      fwd0.heap.hostOf fwd0.req = some (sampleRequest (some "cluster-a")).Host ∧
      fwd.heap.pathOf fwd.req = fwd0.heap.pathOf fwd0.req ∧
      fwd.heap.pathOf fwd.req = some (formatProxyURL sampleConfig "cluster-a" sampleURL.Path) :=
  ⟨rfl, rfl,
    RoundTrip_host_override sampleConfig (sampleRouter true (some "gateway.example") none) 0
      (sampleWorld (some "cluster-a")) (sampleRequest (some "cluster-a")) 0 sampleURL
      "cluster-a" rfl rfl rfl rfl rfl⟩

/-- C6: on every branch (strict error, fallback pass-through, filter pass-through,
rewrite) `RoundTrip` returns and leaves the caller's request as it was: the request
cell and the URL cell it points to are unchanged, so its URL path and its host after
the call are those before the call. -/
theorem RoundTrip_original_unchanged (cfg : config) (c : clusterGatewayRoundTripper)
    (request : Addr) (w : World) (r : Request) (ua : Addr) (u : URL)
    (hr : w.heap.loadReq request = some r) (hu : r.URL = some ua)
    (hv : w.heap.loadURL ua = some u) :
    ∃ res w1, RoundTrip cfg c request w = some (res, w1) ∧
      w1.heap.loadReq request = some r ∧ w1.heap.loadURL ua = some u ∧
      w1.heap.pathOf request = w.heap.pathOf request ∧
      w1.heap.hostOf request = w.heap.hostOf request ∧
      w1.heap.pathOf request = some u.Path ∧
      w1.heap.hostOf request = some r.Host := by
  have hp : w.heap.pathOf request = some u.Path := by simp [Heap.pathOf, hr, hu, hv]
  have hhost : w.heap.hostOf request = some r.Host := by simp [Heap.hostOf, hr]
  rcases RoundTrip_branches cfg c request w r ua u hr hu hv with
    ⟨_, _, h⟩ | ⟨_, h⟩ | ⟨hint, _, _, h⟩
  · exact ⟨_, _, h, hr, hv, rfl, rfl, hp, hhost⟩
  · exact ⟨_, _, h, hr, hv, rfl, rfl, hp, hhost⟩
  · refine ⟨_, _, h, rewrittenHeap_loadReq cfg c w.heap r u hint request r hr,
      rewrittenHeap_loadURL cfg c w.heap r u hint ua u hv, ?_, ?_,
      rewrittenHeap_pathOf_old cfg c w.heap r u hint request r ua u hr hu hv,
      rewrittenHeap_hostOf_old cfg c w.heap r u hint request r hr⟩
    · rw [hp]
      exact rewrittenHeap_pathOf_old cfg c w.heap r u hint request r ua u hr hu hv
    · rw [hhost]
      exact rewrittenHeap_hostOf_old cfg c w.heap r u hint request r hr

theorem RoundTrip_original_unchanged_witness :
    (sampleWorld (some "cluster-a")).heap.loadReq 0 = some (sampleRequest (some "cluster-a")) ∧
    (sampleRequest (some "cluster-a")).URL = some 0 ∧
    (sampleWorld (some "cluster-a")).heap.loadURL 0 = some sampleURL ∧
    ∃ res w1,
      RoundTrip sampleConfig (sampleRouter true (some "gateway.example") none) 0
        (sampleWorld (some "cluster-a")) = some (res, w1) ∧
      w1.heap.loadReq 0 = some (sampleRequest (some "cluster-a")) ∧
      w1.heap.loadURL 0 = some sampleURL ∧
      w1.heap.pathOf 0 = (sampleWorld (some "cluster-a")).heap.pathOf 0 ∧
      w1.heap.hostOf 0 = (sampleWorld (some "cluster-a")).heap.hostOf 0 ∧
      w1.heap.pathOf 0 = some sampleURL.Path ∧
      w1.heap.hostOf 0 = some (sampleRequest (some "cluster-a")).Host :=
  ⟨rfl, rfl, rfl,
    RoundTrip_original_unchanged sampleConfig
      (sampleRouter true (some "gateway.example") none) 0 (sampleWorld (some "cluster-a"))
      (sampleRequest (some "cluster-a")) 0 sampleURL rfl rfl rfl⟩

/-- C7: on every branch but the missing hint under the strict policy, `RoundTrip`
calls the delegate on a forwarded request and returns the pair the delegate returns
for that request, both components as they are. -/
theorem RoundTrip_returns_delegate_result (cfg : config) (c : clusterGatewayRoundTripper)
    (request : Addr) (w : World) (r : Request) (ua : Addr) (u : URL)
    (hr : w.heap.loadReq request = some r) (hu : r.URL = some ua)
    (hv : w.heap.loadURL ua = some u)
    (hb : ¬ (r.ctx.clusterName = none ∧ c.fallback = false)) :
    ∃ res w1 fwd, RoundTrip cfg c request w = some (res, w1) ∧
      w1.calls = w.calls ++ [fwd] ∧ w1.heap = fwd.heap ∧
      res = c.delegate fwd.heap fwd.req ∧
      res.1 = (c.delegate fwd.heap fwd.req).1 ∧ res.2 = (c.delegate fwd.heap fwd.req).2 := by
  rcases RoundTrip_branches cfg c request w r ua u hr hu hv with
    ⟨h1, h2, _⟩ | ⟨_, h⟩ | ⟨hint, _, _, h⟩
  · exact absurd ⟨h1, h2⟩ hb
  · exact ⟨_, _, ⟨request, w.heap⟩, h, rfl, rfl, rfl, rfl, rfl⟩
  · exact ⟨_, _, ⟨w.heap.reqs.length, rewrittenHeap cfg c w.heap r u hint⟩, h,
      rfl, rfl, rfl, rfl, rfl⟩

theorem RoundTrip_returns_delegate_result_witness :
    (sampleWorld (some "cluster-a")).heap.loadReq 0 = some (sampleRequest (some "cluster-a")) ∧
    ¬ ((sampleRequest (some "cluster-a")).ctx.clusterName = none ∧
      (sampleRouter false none none).fallback = false) ∧
    ∃ res w1 fwd,
      RoundTrip sampleConfig (sampleRouter false none none) 0
        (sampleWorld (some "cluster-a")) = some (res, w1) ∧
      w1.calls = (sampleWorld (some "cluster-a")).calls ++ [fwd] ∧ w1.heap = fwd.heap ∧
      res = (sampleRouter false none none).delegate fwd.heap fwd.req ∧
      res.1 = ((sampleRouter false none none).delegate fwd.heap fwd.req).1 ∧
      res.2 = ((sampleRouter false none none).delegate fwd.heap fwd.req).2 :=
  ⟨rfl, by decide,
    RoundTrip_returns_delegate_result sampleConfig (sampleRouter false none none) 0
      (sampleWorld (some "cluster-a")) (sampleRequest (some "cluster-a")) 0 sampleURL
      rfl rfl rfl (by decide)⟩

/-- C8: one call of `RoundTrip` calls the delegate at most once: not at all when
the hint is missing and the fallback policy is disabled, once in every other case. -/
theorem RoundTrip_delegate_call_count (cfg : config) (c : clusterGatewayRoundTripper)
    (request : Addr) (w : World) (r : Request) (ua : Addr) (u : URL)
    (hr : w.heap.loadReq request = some r) (hu : r.URL = some ua)
    (hv : w.heap.loadURL ua = some u) :
    ∃ res w1 new, RoundTrip cfg c request w = some (res, w1) ∧
      w1.calls = w.calls ++ new ∧ new.length ≤ 1 ∧
      ((r.ctx.clusterName = none ∧ c.fallback = false) → new.length = 0) ∧
      (¬ (r.ctx.clusterName = none ∧ c.fallback = false) → new.length = 1) := by
  rcases RoundTrip_branches cfg c request w r ua u hr hu hv with
    ⟨h1, h2, h⟩ | ⟨hn, h⟩ | ⟨hint, hh, _, h⟩
  · exact ⟨_, _, [], h, (List.append_nil _).symm, Nat.zero_le _, fun _ => rfl,
      fun hn => absurd ⟨h1, h2⟩ hn⟩
  · exact ⟨_, _, [⟨request, w.heap⟩], h, rfl, Nat.le_refl _, fun hs => absurd hs hn,
      fun _ => rfl⟩
  · refine ⟨_, _, [⟨w.heap.reqs.length, rewrittenHeap cfg c w.heap r u hint⟩], h, rfl,
      Nat.le_refl _, fun hs => ?_, fun _ => rfl⟩
    rw [hh] at hs
    exact Option.noConfusion hs.1

theorem RoundTrip_delegate_call_count_witness :
    (sampleWorld none).heap.loadReq 0 = some (sampleRequest none) ∧
    (sampleRequest none).URL = some 0 ∧
    (sampleWorld none).heap.loadURL 0 = some sampleURL ∧
    ∃ res w1 new,
      RoundTrip sampleConfig (sampleRouter false none none) 0 (sampleWorld none) =
        some (res, w1) ∧
      w1.calls = (sampleWorld none).calls ++ new ∧ new.length ≤ 1 ∧
      (((sampleRequest none).ctx.clusterName = none ∧
          (sampleRouter false none none).fallback = false) → new.length = 0) ∧
      (¬ ((sampleRequest none).ctx.clusterName = none ∧
          (sampleRouter false none none).fallback = false) → new.length = 1) :=
  ⟨rfl, rfl, rfl,
    RoundTrip_delegate_call_count sampleConfig (sampleRouter false none none) 0
      (sampleWorld none) (sampleRequest none) 0 sampleURL rfl rfl rfl⟩

/-- C9: `RoundTrip` returns, and if the delegate returns no error for the request
forwarded to it, then `RoundTrip` returns an error exactly when the request has no
hint and the fallback policy is disabled; a hint that is present, accepted or
filtered out, does not make it fail. -/
theorem RoundTrip_error_iff_strict_missing (cfg : config) (c : clusterGatewayRoundTripper)
    (request : Addr) (w : World) (r : Request) (ua : Addr) (u : URL)
    (hr : w.heap.loadReq request = some r) (hu : r.URL = some ua)
    (hv : w.heap.loadURL ua = some u) :
    ∃ res w1 new, RoundTrip cfg c request w = some (res, w1) ∧
      w1.calls = w.calls ++ new ∧
      ((∀ fwd ∈ new, (c.delegate fwd.heap fwd.req).2 = none) →
        (res.2 ≠ none ↔ (r.ctx.clusterName = none ∧ c.fallback = false))) := by
  rcases RoundTrip_branches cfg c request w r ua u hr hu hv with
    ⟨h1, h2, h⟩ | ⟨hn, h⟩ | ⟨hint, hh, _, h⟩
  · exact ⟨_, _, [], h, (List.append_nil _).symm,
      fun _ => ⟨fun _ => ⟨h1, h2⟩, fun _ he => Option.noConfusion he⟩⟩
  · refine ⟨_, _, [⟨request, w.heap⟩], h, rfl, fun hd => ?_⟩
    have hd0 := hd ⟨request, w.heap⟩ (List.mem_singleton.mpr rfl)
    exact ⟨fun he => absurd hd0 he, fun hs => absurd hs hn⟩
  · refine ⟨_, _, [⟨w.heap.reqs.length, rewrittenHeap cfg c w.heap r u hint⟩], h, rfl,
      fun hd => ?_⟩
    have hd0 := hd ⟨w.heap.reqs.length, rewrittenHeap cfg c w.heap r u hint⟩
      (List.mem_singleton.mpr rfl)
    refine ⟨fun he => absurd hd0 he, fun hs => ?_⟩
    rw [hh] at hs
    exact Option.noConfusion hs.1

theorem RoundTrip_error_iff_strict_missing_witness :
    (sampleWorld (some "local")).heap.loadReq 0 = some (sampleRequest (some "local")) ∧
    (sampleRequest (some "local")).URL = some 0 ∧
    (sampleWorld (some "local")).heap.loadURL 0 = some sampleURL ∧
    ∃ res w1 new,
      RoundTrip sampleConfig (sampleRouter false none (some notLocal)) 0
        (sampleWorld (some "local")) = some (res, w1) ∧
      w1.calls = (sampleWorld (some "local")).calls ++ new ∧
      ((∀ fwd ∈ new,
          ((sampleRouter false none (some notLocal)).delegate fwd.heap fwd.req).2 = none) →
        (res.2 ≠ none ↔ ((sampleRequest (some "local")).ctx.clusterName = none ∧
          (sampleRouter false none (some notLocal)).fallback = false))) :=
  ⟨rfl, rfl, rfl,
    RoundTrip_error_iff_strict_missing sampleConfig (sampleRouter false none (some notLocal)) 0
      (sampleWorld (some "local")) (sampleRequest (some "local")) 0 sampleURL rfl rfl rfl⟩

/-- C10: the leading slash is stripped at most once.  For a path `p` that does not
start with a slash, `"/" ++ p` and `p` are rewritten to the same path, and `p` is
appended after `/proxy/` as it is (the empty path included); a path that starts with
`k ≥ 2` slashes keeps `k - 1` of them after `/proxy/`. -/
theorem formatProxyURL_strips_once (cfg : config) (hint : String) :
    (∀ p : String, p.data.head? ≠ some '/' →
      formatProxyURL cfg hint ("/" ++ p) = formatProxyURL cfg hint p) ∧
    (∀ (k : Nat) (q : String), 2 ≤ k → q.data.head? ≠ some '/' →
      formatProxyURL cfg hint (String.mk (List.replicate k '/') ++ q) =
        "/apis/" ++ cfg.MetaApiGroupName ++ "/" ++ cfg.MetaApiVersionName ++
          "/clustergateways/" ++ hint ++ "/proxy/" ++
          (String.mk (List.replicate (k - 1) '/') ++ q)) ∧
    (∀ p : String, p.data.head? ≠ some '/' →
      formatProxyURL cfg hint p =
        "/apis/" ++ cfg.MetaApiGroupName ++ "/" ++ cfg.MetaApiVersionName ++
          "/clustergateways/" ++ hint ++ "/proxy/" ++ p) ∧
    formatProxyURL cfg hint "" =
      "/apis/" ++ cfg.MetaApiGroupName ++ "/" ++ cfg.MetaApiVersionName ++
        "/clustergateways/" ++ hint ++ "/proxy/" := by
  refine ⟨fun p hp => ?_, fun k q hk _ => ?_, fun p hp => ?_, ?_⟩
  · have h1 : stripLeadingSlash ("/" ++ p) = p := stripLeadingSlash_slash p.data
    rw [formatProxyURL_eq, formatProxyURL_eq, h1, stripLeadingSlash_of_no_slash p hp]
  · obtain ⟨j, rfl⟩ : ∃ j, k = j + 1 := ⟨k - 1, by omega⟩
    have h1 : stripLeadingSlash (String.mk (List.replicate (j + 1) '/') ++ q) =
        String.mk (List.replicate j '/') ++ q :=
      stripLeadingSlash_slash (List.replicate j '/' ++ q.data)
    rw [formatProxyURL_eq, h1, Nat.add_sub_cancel]
  · rw [formatProxyURL_eq, stripLeadingSlash_of_no_slash p hp]
  · have h1 : stripLeadingSlash "" = "" := rfl
    rw [formatProxyURL_eq, h1, String.append_empty]

theorem formatProxyURL_strips_once_witness :
    ("a/b" : String).data.head? ≠ some '/' ∧ 2 ≤ 3 ∧
    formatProxyURL sampleConfig "cluster-a" ("/" ++ "a/b") =
      formatProxyURL sampleConfig "cluster-a" "a/b" ∧
    formatProxyURL sampleConfig "cluster-a" (String.mk (List.replicate 3 '/') ++ "a/b") =
      "/apis/" ++ sampleConfig.MetaApiGroupName ++ "/" ++ sampleConfig.MetaApiVersionName ++
        "/clustergateways/" ++ "cluster-a" ++ "/proxy/" ++
        (String.mk (List.replicate (3 - 1) '/') ++ "a/b") ∧
    formatProxyURL sampleConfig "cluster-a" "a/b" =
      "/apis/" ++ sampleConfig.MetaApiGroupName ++ "/" ++ sampleConfig.MetaApiVersionName ++
        "/clustergateways/" ++ "cluster-a" ++ "/proxy/" ++ "a/b" :=
  ⟨by decide, by decide,
    (formatProxyURL_strips_once sampleConfig "cluster-a").1 "a/b" (by decide),
    (formatProxyURL_strips_once sampleConfig "cluster-a").2.1 3 "a/b" (by decide) (by decide),
    (formatProxyURL_strips_once sampleConfig "cluster-a").2.2.1 "a/b" (by decide)⟩

/-! ## Routing a request twice -/

theorem stripLeadingSlash_formatProxyURL (cfg : config) (hint p : String) :
    stripLeadingSlash (formatProxyURL cfg hint p) =
      "apis/" ++ cfg.MetaApiGroupName ++ "/" ++ cfg.MetaApiVersionName ++
        "/clustergateways/" ++ hint ++ "/proxy/" ++ stripLeadingSlash p := by
  have h : formatProxyURL cfg hint p =
      String.mk ('/' :: ("apis/" ++ cfg.MetaApiGroupName ++ "/" ++ cfg.MetaApiVersionName ++
        "/clustergateways/" ++ hint ++ "/proxy/" ++ stripLeadingSlash p).data) := by
    rw [formatProxyURL_eq]
    apply String.ext
    simp [String.data_append]
  rw [h, stripLeadingSlash_slash]

theorem formatProxyURL_twice (cfg : config) (hint p : String) :
    formatProxyURL cfg hint (formatProxyURL cfg hint p) = doublePrefixed cfg hint p := by
  rw [formatProxyURL_eq, stripLeadingSlash_formatProxyURL]
  apply String.ext
  simp [doublePrefixed, String.data_append]

theorem formatProxyURL_twice_ne (cfg : config) (hint p : String) :
    formatProxyURL cfg hint (formatProxyURL cfg hint p) ≠ formatProxyURL cfg hint p := by
  intro h
  rw [formatProxyURL_eq, stripLeadingSlash_formatProxyURL, formatProxyURL_eq] at h
  have hl := congrArg String.length h
  simp only [String.length_append] at hl
  have h1 : "/".length = 1 := rfl
  omega

/-- The clone the delegate is handed on the rewrite branch. -/
theorem rewrittenHeap_loadReq_new (cfg : config) (c : clusterGatewayRoundTripper) (h : Heap)
    (r : Request) (u : URL) (hint : String) :
    (rewrittenHeap cfg c h r u hint).loadReq h.reqs.length =
      some { r with URL := some h.urls.length,
                    Host := match c.host with
                            | some host => host
                            | none => r.Host } := by
  simp [rewrittenHeap, Heap.loadReq, getElem?_length_append]

/-- The URL of the clone the delegate is handed on the rewrite branch. -/
theorem rewrittenHeap_loadURL_new (cfg : config) (c : clusterGatewayRoundTripper) (h : Heap)
    (r : Request) (u : URL) (hint : String) :
    (rewrittenHeap cfg c h r u hint).loadURL h.urls.length =
      some { u with Path := formatProxyURL cfg hint u.Path } := by
  simp [rewrittenHeap, Heap.loadURL, getElem?_length_append]

/-- C11: rewriting is not idempotent.  For an accepted hint the forwarded clone
still carries the hint, and routing the forwarded request through the same router
again forwards a request with the double-prefixed path
`/apis/G/V/clustergateways/h/proxy/apis/G/V/clustergateways/h/proxy/<path>`, which is
`formatProxyURL` applied twice and differs from `formatProxyURL` applied once. -/
theorem RoundTrip_twice_double_prefix (cfg : config) (c : clusterGatewayRoundTripper)
    (request : Addr) (w : World) (r : Request) (ua : Addr) (u : URL) (hint : String)
    (hr : w.heap.loadReq request = some r) (hu : r.URL = some ua)
    (hv : w.heap.loadURL ua = some u)
    (hh : r.ctx.clusterName = some hint) (ha : accepted c hint = true) :
    ∃ res w1 fwd r1 res2 w2 fwd2,
      RoundTrip cfg c request w = some (res, w1) ∧ w1.calls = w.calls ++ [fwd] ∧
      fwd.heap.loadReq fwd.req = some r1 ∧ r1.ctx.clusterName = some hint ∧
      fwd.heap.pathOf fwd.req = some (formatProxyURL cfg hint u.Path) ∧
      RoundTrip cfg c fwd.req w1 = some (res2, w2) ∧ w2.calls = w1.calls ++ [fwd2] ∧
      fwd2.heap.pathOf fwd2.req =
        some (formatProxyURL cfg hint (formatProxyURL cfg hint u.Path)) ∧
      formatProxyURL cfg hint (formatProxyURL cfg hint u.Path) =
        "/apis/" ++ cfg.MetaApiGroupName ++ "/" ++ cfg.MetaApiVersionName ++
          "/clustergateways/" ++ hint ++ "/proxy/apis/" ++ cfg.MetaApiGroupName ++ "/" ++
          cfg.MetaApiVersionName ++ "/clustergateways/" ++ hint ++ "/proxy/" ++
          stripLeadingSlash u.Path ∧
      formatProxyURL cfg hint (formatProxyURL cfg hint u.Path) ≠
        formatProxyURL cfg hint u.Path := by
  have h2 := RoundTrip_rewrite cfg c w.heap.reqs.length
    { heap := rewrittenHeap cfg c w.heap r u hint,
      calls := w.calls ++ [⟨w.heap.reqs.length, rewrittenHeap cfg c w.heap r u hint⟩] }
    _ w.heap.urls.length _ hint
    (rewrittenHeap_loadReq_new cfg c w.heap r u hint) rfl
    (rewrittenHeap_loadURL_new cfg c w.heap r u hint) hh ha
  refine ⟨_, _, ⟨w.heap.reqs.length, rewrittenHeap cfg c w.heap r u hint⟩, _, _, _, _,
    RoundTrip_rewrite cfg c request w r ua u hint hr hu hv hh ha, rfl,
    rewrittenHeap_loadReq_new cfg c w.heap r u hint, hh,
    rewrittenHeap_pathOf cfg c w.heap r u hint, h2, rfl, ?_,
    formatProxyURL_twice cfg hint u.Path, formatProxyURL_twice_ne cfg hint u.Path⟩
  exact rewrittenHeap_pathOf cfg c _ _ _ hint

theorem RoundTrip_twice_double_prefix_witness :
    (sampleWorld (some "cluster-a")).heap.loadReq 0 = some (sampleRequest (some "cluster-a")) ∧
    accepted (sampleRouter false none none) "cluster-a" = true ∧
    ∃ res w1 fwd r1 res2 w2 fwd2,
      RoundTrip sampleConfig (sampleRouter false none none) 0
        (sampleWorld (some "cluster-a")) = some (res, w1) ∧
      w1.calls = (sampleWorld (some "cluster-a")).calls ++ [fwd] ∧
      fwd.heap.loadReq fwd.req = some r1 ∧ r1.ctx.clusterName = some "cluster-a" ∧
      fwd.heap.pathOf fwd.req = some (formatProxyURL sampleConfig "cluster-a" sampleURL.Path) ∧
      RoundTrip sampleConfig (sampleRouter false none none) fwd.req w1 = some (res2, w2) ∧
      w2.calls = w1.calls ++ [fwd2] ∧
      fwd2.heap.pathOf fwd2.req =
        some (formatProxyURL sampleConfig "cluster-a"
          (formatProxyURL sampleConfig "cluster-a" sampleURL.Path)) ∧
      formatProxyURL sampleConfig "cluster-a"
          (formatProxyURL sampleConfig "cluster-a" sampleURL.Path) =
        "/apis/" ++ sampleConfig.MetaApiGroupName ++ "/" ++ sampleConfig.MetaApiVersionName ++
          "/clustergateways/" ++ "cluster-a" ++ "/proxy/apis/" ++
          sampleConfig.MetaApiGroupName ++ "/" ++ sampleConfig.MetaApiVersionName ++
          "/clustergateways/" ++ "cluster-a" ++ "/proxy/" ++
          stripLeadingSlash sampleURL.Path ∧
      formatProxyURL sampleConfig "cluster-a"
          (formatProxyURL sampleConfig "cluster-a" sampleURL.Path) ≠
        formatProxyURL sampleConfig "cluster-a" sampleURL.Path :=
  ⟨rfl, rfl,
    RoundTrip_twice_double_prefix sampleConfig (sampleRouter false none none) 0
      (sampleWorld (some "cluster-a")) (sampleRequest (some "cluster-a")) 0 sampleURL
      "cluster-a" rfl rfl rfl rfl rfl⟩

/-- C12: with api-group `cluster.core.oam.dev` and api-version `v1alpha1`, a request
with the accepted hint `cluster-a` and original path `/api/v1/pods` is forwarded with
the path
`/apis/cluster.core.oam.dev/v1alpha1/clustergateways/cluster-a/proxy/api/v1/pods`. -/
theorem RoundTrip_cluster_a_pods (c : clusterGatewayRoundTripper)
    (request : Addr) (w : World) (r : Request) (ua : Addr) (u : URL)
    (hr : w.heap.loadReq request = some r) (hu : r.URL = some ua)
    (hv : w.heap.loadURL ua = some u) (hp : u.Path = "/api/v1/pods")
    (hh : r.ctx.clusterName = some "cluster-a") (ha : accepted c "cluster-a" = true) :
    formatProxyURL ⟨"cluster.core.oam.dev", "v1alpha1"⟩ "cluster-a" "/api/v1/pods" =
      "/apis/cluster.core.oam.dev/v1alpha1/clustergateways/cluster-a/proxy/api/v1/pods" ∧
    ∃ res w1 fwd,
      RoundTrip ⟨"cluster.core.oam.dev", "v1alpha1"⟩ c request w = some (res, w1) ∧
      w1.calls = w.calls ++ [fwd] ∧
      fwd.heap.pathOf fwd.req =
        some "/apis/cluster.core.oam.dev/v1alpha1/clustergateways/cluster-a/proxy/api/v1/pods" := by
  have hf : formatProxyURL ⟨"cluster.core.oam.dev", "v1alpha1"⟩ "cluster-a" "/api/v1/pods" =
      "/apis/cluster.core.oam.dev/v1alpha1/clustergateways/cluster-a/proxy/api/v1/pods" := by
    decide
  refine ⟨hf, _, _,
    ⟨w.heap.reqs.length,
      rewrittenHeap ⟨"cluster.core.oam.dev", "v1alpha1"⟩ c w.heap r u "cluster-a"⟩,
    RoundTrip_rewrite _ c request w r ua u "cluster-a" hr hu hv hh ha, rfl, ?_⟩
  rw [← hf, ← hp]
  exact rewrittenHeap_pathOf _ c w.heap r u "cluster-a"

theorem RoundTrip_cluster_a_pods_witness :
    (sampleWorld (some "cluster-a")).heap.loadReq 0 = some (sampleRequest (some "cluster-a")) ∧
    sampleURL.Path = "/api/v1/pods" ∧
    accepted (sampleRouter true none (some notLocal)) "cluster-a" = true ∧
    (formatProxyURL ⟨"cluster.core.oam.dev", "v1alpha1"⟩ "cluster-a" "/api/v1/pods" =
      "/apis/cluster.core.oam.dev/v1alpha1/clustergateways/cluster-a/proxy/api/v1/pods" ∧
    ∃ res w1 fwd,
      RoundTrip ⟨"cluster.core.oam.dev", "v1alpha1"⟩ (sampleRouter true none (some notLocal)) 0
        (sampleWorld (some "cluster-a")) = some (res, w1) ∧
      w1.calls = (sampleWorld (some "cluster-a")).calls ++ [fwd] ∧
      fwd.heap.pathOf fwd.req =
        some "/apis/cluster.core.oam.dev/v1alpha1/clustergateways/cluster-a/proxy/api/v1/pods") :=
  ⟨rfl, rfl, by decide,
    RoundTrip_cluster_a_pods (sampleRouter true none (some notLocal)) 0
      (sampleWorld (some "cluster-a")) (sampleRequest (some "cluster-a")) 0 sampleURL
      rfl rfl rfl rfl rfl (by decide)⟩

/-! ## Lemmas on construction -/

/-- The options of a list applied in order to a router: delegate and fallback are
kept, the last host option and the last filter option win. -/
theorem foldl_options_fields (ops : List NamedOption) (rt0 : clusterGatewayRoundTripper) :
    ((ops.map NamedOption.build).foldl
        (fun wrapped op => ApplyToClusterGatewayRoundTripper op wrapped) rt0).delegate =
      rt0.delegate ∧
    ((ops.map NamedOption.build).foldl
        (fun wrapped op => ApplyToClusterGatewayRoundTripper op wrapped) rt0).fallback =
      rt0.fallback ∧
    ((ops.map NamedOption.build).foldl
        (fun wrapped op => ApplyToClusterGatewayRoundTripper op wrapped) rt0).host =
      (match lastHost ops with
       | some host => some host
       | none => rt0.host) ∧
    ((ops.map NamedOption.build).foldl
        (fun wrapped op => ApplyToClusterGatewayRoundTripper op wrapped) rt0).filter =
      (match lastFilter ops with
       | some filter => filter
       | none => rt0.filter) := by
  induction ops generalizing rt0 with
  | nil => exact ⟨rfl, rfl, rfl, rfl⟩
  | cons op rest ih =>
    obtain ⟨h1, h2, h3, h4⟩ := ih (ApplyToClusterGatewayRoundTripper op.build rt0)
    simp only [List.map_cons, List.foldl_cons]
    refine ⟨?_, ?_, ?_, ?_⟩
    · rw [h1]
      cases op <;> rfl
    · rw [h2]
      cases op <;> rfl
    · rw [h3]
      simp only [lastHost]
      cases lastHost rest with
      | some host => rfl
      | none => cases op <;> rfl
    · rw [h4]
      simp only [lastFilter]
      cases lastFilter rest with
      | some filter => rfl
      | none => cases op <;> rfl

/-- A router with fallback enabled answers every request with the answer of its
delegate on the one request it forwards. -/
theorem RoundTrip_of_fallback (cfg : config) (c : clusterGatewayRoundTripper)
    (request : Addr) (w : World) (r : Request) (ua : Addr) (u : URL)
    (hr : w.heap.loadReq request = some r) (hu : r.URL = some ua)
    (hv : w.heap.loadURL ua = some u) (hf : c.fallback = true) :
    ∃ fwd w1, RoundTrip cfg c request w = some (c.delegate fwd.heap fwd.req, w1) ∧
      w1.calls = w.calls ++ [fwd] := by
  rcases RoundTrip_branches cfg c request w r ua u hr hu hv with
    ⟨_, h, _⟩ | ⟨_, h⟩ | ⟨hint, _, _, h⟩
  · rw [hf] at h
    exact Bool.noConfusion h
  · exact ⟨⟨request, w.heap⟩, _, h, rfl⟩
  · exact ⟨⟨w.heap.reqs.length, rewrittenHeap cfg c w.heap r u hint⟩, _, h, rfl⟩

/-- C13: default construction yields a router with the given delegate, fallback
enabled, no host override and no filter; strict construction yields a router with
the given delegate, the fallback the caller supplied, no host override and no
filter. -/
theorem constructors_fields (delegate : RoundTripper) (fallback : Bool) :
    ((NewClusterGatewayRoundTripper delegate).delegate = delegate ∧
      (NewClusterGatewayRoundTripper delegate).fallback = true ∧
      (NewClusterGatewayRoundTripper delegate).host = none ∧
      (NewClusterGatewayRoundTripper delegate).filter = none) ∧
    ((NewStrictClusterGatewayRoundTripper delegate fallback).delegate = delegate ∧
      (NewStrictClusterGatewayRoundTripper delegate fallback).fallback = fallback ∧
      (NewStrictClusterGatewayRoundTripper delegate fallback).host = none ∧
      (NewStrictClusterGatewayRoundTripper delegate fallback).filter = none) :=
  ⟨⟨rfl, rfl, rfl, rfl⟩, ⟨rfl, rfl, rfl, rfl⟩⟩

/-- C14: the wrapper applies its options in list order to a freshly
default-constructed router.  For a list of named options the host override is the
value of the last host option (absent if there is none), the filter is the
predicate of the last filter option (absent if there is none), and the delegate is
the wrapped transport; a host option does not change the filter and a filter option
does not change the host override. -/
theorem wrapper_applies_options_in_order :
    (∀ rt : RoundTripper,
      NewClusterGatewayRoundTripperWrapper [] rt = NewClusterGatewayRoundTripper rt) ∧
    (∀ (options : List ClusterGatewayRoundTripperOption)
        (op : ClusterGatewayRoundTripperOption) (rt : RoundTripper),
      NewClusterGatewayRoundTripperWrapper (options ++ [op]) rt =
        ApplyToClusterGatewayRoundTripper op
          (NewClusterGatewayRoundTripperWrapper options rt)) ∧
    (∀ (ops : List NamedOption) (rt : RoundTripper),
      (NewClusterGatewayRoundTripperWrapper (ops.map NamedOption.build) rt).host =
        lastHost ops ∧
      (NewClusterGatewayRoundTripperWrapper (ops.map NamedOption.build) rt).filter =
        (match lastFilter ops with
         | some filter => filter
         | none => none) ∧
      (NewClusterGatewayRoundTripperWrapper (ops.map NamedOption.build) rt).delegate = rt) ∧
    (∀ (host : String) (rt : clusterGatewayRoundTripper),
      (ApplyToClusterGatewayRoundTripper (ClusterGatewayRoundTripperWithHost host) rt).filter =
          rt.filter ∧
      (ApplyToClusterGatewayRoundTripper (ClusterGatewayRoundTripperWithHost host) rt).host =
          some host) ∧
    (∀ (filter : Option (String → Bool)) (rt : clusterGatewayRoundTripper),
      (ApplyToClusterGatewayRoundTripper (ClusterGatewayRoundTripperWithFilter filter) rt).host =
          rt.host ∧
      (ApplyToClusterGatewayRoundTripper
          (ClusterGatewayRoundTripperWithFilter filter) rt).filter = filter) := by
  refine ⟨fun _ => rfl, fun options op rt => ?_, fun ops rt => ?_, fun _ _ => ⟨rfl, rfl⟩,
    fun _ _ => ⟨rfl, rfl⟩⟩
  · simp only [NewClusterGatewayRoundTripperWrapper, List.foldl_append, List.foldl_cons,
      List.foldl_nil]
  · obtain ⟨h1, _, h3, h4⟩ := foldl_options_fields ops (NewClusterGatewayRoundTripper rt)
    refine ⟨?_, h4, h1⟩
    simp only [NewClusterGatewayRoundTripperWrapper]
    rw [h3]
    cases lastHost ops <;> rfl

/-- C18: for every list of named options the router the wrapper produces has
fallback enabled.  So a request without hint is forwarded as it is, and for every
request what `RoundTrip` returns is the answer of the delegate on the one request
forwarded to it, not the missing-routing-context error of the router. -/
theorem wrapper_never_strict (ops : List NamedOption) (rt : RoundTripper) :
    (NewClusterGatewayRoundTripperWrapper (ops.map NamedOption.build) rt).fallback = true ∧
    (∀ (cfg : config) (request : Addr) (w : World) (r : Request),
      w.heap.loadReq request = some r → r.ctx.clusterName = none →
      RoundTrip cfg (NewClusterGatewayRoundTripperWrapper (ops.map NamedOption.build) rt)
          request w =
        some (rt w.heap request,
          { heap := w.heap, calls := w.calls ++ [⟨request, w.heap⟩] })) ∧
    (∀ (cfg : config) (request : Addr) (w : World) (r : Request) (ua : Addr) (u : URL),
      w.heap.loadReq request = some r → r.URL = some ua → w.heap.loadURL ua = some u →
      ∃ fwd w1,
        RoundTrip cfg (NewClusterGatewayRoundTripperWrapper (ops.map NamedOption.build) rt)
            request w = some (rt fwd.heap fwd.req, w1) ∧
        w1.calls = w.calls ++ [fwd]) := by
  obtain ⟨h1, h2, _, _⟩ := foldl_options_fields ops (NewClusterGatewayRoundTripper rt)
  have hd : (NewClusterGatewayRoundTripperWrapper (ops.map NamedOption.build) rt).delegate =
      rt := h1
  have hf : (NewClusterGatewayRoundTripperWrapper (ops.map NamedOption.build) rt).fallback =
      true := h2
  refine ⟨hf, fun cfg request w r hr hh => ?_, fun cfg request w r ua u hr hu hv => ?_⟩
  · rw [RoundTrip_fallback cfg _ request w r hr hh hf, delegateRoundTrip, hd]
  · obtain ⟨fwd, w1, h, hc⟩ :=
      RoundTrip_of_fallback cfg _ request w r ua u hr hu hv hf
    rw [hd] at h
    exact ⟨fwd, w1, h, hc⟩

theorem wrapper_never_strict_witness :
    (sampleWorld none).heap.loadReq 0 = some (sampleRequest none) ∧
    (sampleRequest none).ctx.clusterName = none ∧
    RoundTrip sampleConfig
        (NewClusterGatewayRoundTripperWrapper
          ([NamedOption.withHost "gateway.example", NamedOption.withFilter (some notLocal)].map
            NamedOption.build) sampleDelegate) 0 (sampleWorld none) =
      some (sampleDelegate (sampleWorld none).heap 0,
        { heap := (sampleWorld none).heap,
          calls := (sampleWorld none).calls ++ [⟨0, (sampleWorld none).heap⟩] }) :=
  ⟨rfl, rfl,
    (wrapper_never_strict
      [NamedOption.withHost "gateway.example", NamedOption.withFilter (some notLocal)]
      sampleDelegate).2.1 sampleConfig 0 (sampleWorld none) (sampleRequest none) rfl rfl⟩

/-! ## A filtered hint and a missing hint -/

theorem getElem?_lt_of_some {α : Type} (l : List α) (i : Nat) (v : α)
    (h : l[i]? = some v) : i < l.length := by
  by_contra hc
  rw [List.getElem?_eq_none (Nat.le_of_not_lt hc)] at h
  exact Option.noConfusion h

/-- The request cell of the same request with no hint attached. -/
theorem withoutHint_loadReq (w : World) (request : Addr) (r : Request)
    (hr : w.heap.loadReq request = some r) :
    (w.withoutHint request).heap.loadReq request =
        some { r with ctx := { r.ctx with clusterName := none } } ∧
      (w.withoutHint request).calls = w.calls := by
  have hlt : request < w.heap.reqs.length := getElem?_lt_of_some _ _ _ hr
  have hr1 : w.heap.reqs[request]? = some r := hr
  simp only [World.withoutHint, Heap.loadReq, hr1, Heap.storeReq]
  exact ⟨List.getElem?_set_self hlt, trivial⟩

/-- C15, as stated, fails: under the strict policy a request whose hint the filter
rejects is passed to the delegate and answered by it, and the same request with no
hint attached gets the missing-routing-context error and no delegate call. -/
theorem filtered_hint_unlike_missing_hint_when_strict :
    (sampleWorld (some "local")).heap.loadReq 0 = some (sampleRequest (some "local")) ∧
    (sampleRouter false none (some notLocal)).filter = some notLocal ∧
    notLocal "local" = false ∧
    (sampleWorld (some "local")).withoutHint 0 = sampleWorld none ∧
    RoundTrip sampleConfig (sampleRouter false none (some notLocal)) 0
        (sampleWorld (some "local")) =
      some ((some ⟨200, "/api/v1/pods"⟩, none),
        { heap := (sampleWorld (some "local")).heap,
          calls := [⟨0, (sampleWorld (some "local")).heap⟩] }) ∧
    RoundTrip sampleConfig (sampleRouter false none (some notLocal)) 0
        ((sampleWorld (some "local")).withoutHint 0) =
      some ((none, some MissingRoutingContext), sampleWorld none) ∧
    (RoundTrip sampleConfig (sampleRouter false none (some notLocal)) 0
        (sampleWorld (some "local"))).map Prod.fst ≠
      (RoundTrip sampleConfig (sampleRouter false none (some notLocal)) 0
        ((sampleWorld (some "local")).withoutHint 0)).map Prod.fst := by
  refine ⟨rfl, rfl, by decide, by decide, by decide, by decide, by decide⟩

/-- C15, amended: for a router with a filter and with fallback enabled, a request
whose hint the filter rejects and the same request with no hint attached are both
handed to the delegate as they are, once, and answered with the delegate's answer;
so the two outcomes are the same whenever the delegate answers the two requests,
which differ in the hint of their context, alike. -/
theorem RoundTrip_filtered_hint_as_missing_hint (cfg : config)
    (c : clusterGatewayRoundTripper) (request : Addr) (w : World) (r : Request)
    (hint : String) (f : String → Bool)
    (hr : w.heap.loadReq request = some r)
    (hh : r.ctx.clusterName = some hint)
    (hc : c.filter = some f) (hf : f hint = false) (hfb : c.fallback = true) :
    RoundTrip cfg c request w =
      some (c.delegate w.heap request,
        { heap := w.heap, calls := w.calls ++ [⟨request, w.heap⟩] }) ∧
    RoundTrip cfg c request (w.withoutHint request) =
      some (c.delegate (w.withoutHint request).heap request,
        { heap := (w.withoutHint request).heap,
          calls := w.calls ++ [⟨request, (w.withoutHint request).heap⟩] }) ∧
    (w.withoutHint request).heap.loadReq request =
      some { r with ctx := { r.ctx with clusterName := none } } ∧
    (c.delegate w.heap request = c.delegate (w.withoutHint request).heap request →
      (RoundTrip cfg c request w).map Prod.fst =
        (RoundTrip cfg c request (w.withoutHint request)).map Prod.fst) := by
  have ha : accepted c hint = false := by simp [accepted, hc, hf]
  obtain ⟨h0, hcalls⟩ := withoutHint_loadReq w request r hr
  have e1 := RoundTrip_filtered cfg c request w r hint hr hh ha
  have e2 := RoundTrip_fallback cfg c request (w.withoutHint request) _ h0 rfl hfb
  simp only [delegateRoundTrip, hcalls] at e1 e2
  refine ⟨e1, e2, h0, fun hd => ?_⟩
  rw [e1, e2]
  simp only [Option.map_some', hd]

theorem RoundTrip_filtered_hint_as_missing_hint_witness :
    (sampleWorld (some "local")).heap.loadReq 0 = some (sampleRequest (some "local")) ∧
    notLocal "local" = false ∧
    (sampleRouter true none (some notLocal)).fallback = true ∧
    RoundTrip sampleConfig (sampleRouter true none (some notLocal)) 0
        (sampleWorld (some "local")) =
      some (sampleDelegate (sampleWorld (some "local")).heap 0,
        { heap := (sampleWorld (some "local")).heap,
          calls := (sampleWorld (some "local")).calls ++
            [⟨0, (sampleWorld (some "local")).heap⟩] }) ∧
    RoundTrip sampleConfig (sampleRouter true none (some notLocal)) 0
        ((sampleWorld (some "local")).withoutHint 0) =
      some (sampleDelegate ((sampleWorld (some "local")).withoutHint 0).heap 0,
        { heap := ((sampleWorld (some "local")).withoutHint 0).heap,
          calls := (sampleWorld (some "local")).calls ++
            [⟨0, ((sampleWorld (some "local")).withoutHint 0).heap⟩] }) ∧
    ((sampleWorld (some "local")).withoutHint 0).heap.loadReq 0 =
      some { sampleRequest (some "local") with
        ctx := { (sampleRequest (some "local")).ctx with clusterName := none } } ∧
    (sampleDelegate (sampleWorld (some "local")).heap 0 =
        sampleDelegate ((sampleWorld (some "local")).withoutHint 0).heap 0 →
      (RoundTrip sampleConfig (sampleRouter true none (some notLocal)) 0
          (sampleWorld (some "local"))).map Prod.fst =
        (RoundTrip sampleConfig (sampleRouter true none (some notLocal)) 0
          ((sampleWorld (some "local")).withoutHint 0)).map Prod.fst) :=
  ⟨rfl, by decide, rfl,
    RoundTrip_filtered_hint_as_missing_hint sampleConfig
      (sampleRouter true none (some notLocal)) 0 (sampleWorld (some "local"))
      (sampleRequest (some "local")) "local" notLocal rfl rfl rfl (by decide) rfl⟩

/-! ## The empty hint, the frame of the rewrite, and injectivity -/

/-- C16: an empty hint is a hint.  For a request whose hint is the empty string and
a router without filter, under either fallback policy, the hint lookup reports a
hint, `RoundTrip` returns the answer of the delegate (no error of its own), and the
forwarded request has the path `/apis/G/V/clustergateways//proxy/<path>`. -/
theorem RoundTrip_empty_hint (cfg : config) (c : clusterGatewayRoundTripper)
    (request : Addr) (w : World) (r : Request) (ua : Addr) (u : URL)
    (hr : w.heap.loadReq request = some r) (hu : r.URL = some ua)
    (hv : w.heap.loadURL ua = some u)
    (hh : r.ctx.clusterName = some "") (hc : c.filter = none) :
    GetMultiClusterContext r.ctx = ("", true) ∧
    ∃ w1 fwd, RoundTrip cfg c request w = some (c.delegate fwd.heap fwd.req, w1) ∧
      w1.calls = w.calls ++ [fwd] ∧
      fwd.heap.pathOf fwd.req =
        some ("/apis/" ++ cfg.MetaApiGroupName ++ "/" ++ cfg.MetaApiVersionName ++
          "/clustergateways//proxy/" ++ stripLeadingSlash u.Path) := by
  have ha : accepted c "" = true := by simp [accepted, hc]
  refine ⟨by simp [GetMultiClusterContext, hh], _,
    ⟨w.heap.reqs.length, rewrittenHeap cfg c w.heap r u ""⟩,
    RoundTrip_rewrite cfg c request w r ua u "" hr hu hv hh ha, rfl, ?_⟩
  rw [rewrittenHeap_pathOf, formatProxyURL_eq]
  congr 1
  apply String.ext
  simp [String.data_append]

theorem RoundTrip_empty_hint_witness :
    (sampleWorld (some "")).heap.loadReq 0 = some (sampleRequest (some "")) ∧
    (sampleRouter false none none).filter = none ∧
    GetMultiClusterContext (sampleRequest (some "")).ctx = ("", true) ∧
    ∃ w1 fwd,
      RoundTrip sampleConfig (sampleRouter false none none) 0 (sampleWorld (some "")) =
        some ((sampleRouter false none none).delegate fwd.heap fwd.req, w1) ∧
      w1.calls = (sampleWorld (some "")).calls ++ [fwd] ∧
      fwd.heap.pathOf fwd.req =
        some ("/apis/" ++ sampleConfig.MetaApiGroupName ++ "/" ++
          sampleConfig.MetaApiVersionName ++ "/clustergateways//proxy/" ++
          stripLeadingSlash sampleURL.Path) :=
  ⟨rfl, rfl,
    RoundTrip_empty_hint sampleConfig (sampleRouter false none none) 0
      (sampleWorld (some "")) (sampleRequest (some "")) 0 sampleURL rfl rfl rfl rfl rfl⟩

/-- C17: on the rewrite branch the forwarded clone is the original request with a
URL of its own and, when a host override is configured, that host; its URL is the
original URL with the rewritten path.  Method, headers, URL scheme, URL host, query
string, raw path and the context with its hint are those of the original. -/
theorem RoundTrip_clone_frame (cfg : config) (c : clusterGatewayRoundTripper)
    (request : Addr) (w : World) (r : Request) (ua : Addr) (u : URL) (hint : String)
    (hr : w.heap.loadReq request = some r) (hu : r.URL = some ua)
    (hv : w.heap.loadURL ua = some u)
    (hh : r.ctx.clusterName = some hint) (ha : accepted c hint = true) :
    ∃ res w1 fwd r1 ua1 u1,
      RoundTrip cfg c request w = some (res, w1) ∧ w1.calls = w.calls ++ [fwd] ∧
      fwd.heap.loadReq fwd.req = some r1 ∧ r1.URL = some ua1 ∧
      fwd.heap.loadURL ua1 = some u1 ∧
      r1 = { r with URL := some ua1,
                    Host := match c.host with
                            | some host => host
                            | none => r.Host } ∧
      u1 = { u with Path := formatProxyURL cfg hint u.Path } ∧
      r1.Method = r.Method ∧ r1.Header = r.Header ∧ r1.ctx = r.ctx ∧
      r1.ctx.clusterName = some hint ∧ (c.host = none → r1.Host = r.Host) ∧
      u1.Scheme = u.Scheme ∧ u1.Host = u.Host ∧ u1.RawQuery = u.RawQuery ∧
      u1.RawPath = u.RawPath ∧ u1.Fragment = u.Fragment := by
  refine ⟨_, _, ⟨w.heap.reqs.length, rewrittenHeap cfg c w.heap r u hint⟩, _,
    w.heap.urls.length, _,
    RoundTrip_rewrite cfg c request w r ua u hint hr hu hv hh ha, rfl,
    rewrittenHeap_loadReq_new cfg c w.heap r u hint, rfl,
    rewrittenHeap_loadURL_new cfg c w.heap r u hint, rfl, rfl, rfl, rfl, rfl, hh,
    fun hn => ?_, rfl, rfl, rfl, rfl, rfl⟩
  simp only [hn]

theorem RoundTrip_clone_frame_witness :
    (sampleWorld (some "cluster-a")).heap.loadReq 0 = some (sampleRequest (some "cluster-a")) ∧
    accepted (sampleRouter true (some "gateway.example") none) "cluster-a" = true ∧
    ∃ res w1 fwd r1 ua1 u1,
      RoundTrip sampleConfig (sampleRouter true (some "gateway.example") none) 0
        (sampleWorld (some "cluster-a")) = some (res, w1) ∧
      w1.calls = (sampleWorld (some "cluster-a")).calls ++ [fwd] ∧
      fwd.heap.loadReq fwd.req = some r1 ∧ r1.URL = some ua1 ∧
      fwd.heap.loadURL ua1 = some u1 ∧
      r1 = { sampleRequest (some "cluster-a") with
               URL := some ua1,
               Host := match (sampleRouter true (some "gateway.example") none).host with
                       | some host => host
                       | none => (sampleRequest (some "cluster-a")).Host } ∧
      u1 = { sampleURL with Path := formatProxyURL sampleConfig "cluster-a" sampleURL.Path } ∧
      r1.Method = (sampleRequest (some "cluster-a")).Method ∧
      r1.Header = (sampleRequest (some "cluster-a")).Header ∧
      r1.ctx = (sampleRequest (some "cluster-a")).ctx ∧
      r1.ctx.clusterName = some "cluster-a" ∧
      ((sampleRouter true (some "gateway.example") none).host = none →
        r1.Host = (sampleRequest (some "cluster-a")).Host) ∧
      u1.Scheme = sampleURL.Scheme ∧ u1.Host = sampleURL.Host ∧
      u1.RawQuery = sampleURL.RawQuery ∧ u1.RawPath = sampleURL.RawPath ∧
      u1.Fragment = sampleURL.Fragment :=
  ⟨rfl, rfl,
    RoundTrip_clone_frame sampleConfig (sampleRouter true (some "gateway.example") none) 0
      (sampleWorld (some "cluster-a")) (sampleRequest (some "cluster-a")) 0 sampleURL
      "cluster-a" rfl rfl rfl rfl rfl⟩

theorem append_slash_inj (l1 l2 r1 r2 : List Char) (h1 : '/' ∉ l1) (h2 : '/' ∉ l2)
    (h : l1 ++ '/' :: r1 = l2 ++ '/' :: r2) : l1 = l2 ∧ r1 = r2 := by
  induction l1 generalizing l2 with
  | nil =>
    cases l2 with
    | nil => exact ⟨rfl, by simpa using h⟩
    | cons b t =>
      simp only [List.nil_append, List.cons_append, List.cons.injEq] at h
      exact absurd (h.1 ▸ List.mem_cons_self _ _) h2
  | cons a t ih =>
    cases l2 with
    | nil =>
      simp only [List.nil_append, List.cons_append, List.cons.injEq] at h
      exact absurd (h.1 ▸ List.mem_cons_self _ _) h1
    | cons b t2 =>
      simp only [List.cons_append, List.cons.injEq] at h
      obtain ⟨e1, e2⟩ := ih t2 (fun hm => h1 (List.mem_cons_of_mem _ hm))
        (fun hm => h2 (List.mem_cons_of_mem _ hm)) h.2
      exact ⟨by rw [h.1, e1], e2⟩

/-- C19: for fixed api-group and api-version the rewrite is injective on hints
without slash: if two rewritten paths are equal, the hints are equal and the
original paths are equal once one leading slash is stripped from each. -/
theorem formatProxyURL_injective (cfg : config) (h1 h2 p1 p2 : String)
    (hs1 : '/' ∉ h1.data) (hs2 : '/' ∉ h2.data)
    (h : formatProxyURL cfg h1 p1 = formatProxyURL cfg h2 p2) :
    h1 = h2 ∧ stripLeadingSlash p1 = stripLeadingSlash p2 ∧
      strings.TrimPrefix p1 "/" = strings.TrimPrefix p2 "/" := by
  rw [formatProxyURL_eq, formatProxyURL_eq] at h
  have hd := congrArg String.data h
  simp only [String.data_append, List.append_assoc, List.append_cancel_left_eq] at hd
  simp only [List.cons_append, List.nil_append] at hd
  obtain ⟨e1, e2⟩ := append_slash_inj _ _ _ _ hs1 hs2 hd
  have e3 : (stripLeadingSlash p1).data = (stripLeadingSlash p2).data := by
    simpa using e2
  have e4 : stripLeadingSlash p1 = stripLeadingSlash p2 := String.ext e3
  exact ⟨String.ext e1, e4, by rw [TrimPrefix_slash, TrimPrefix_slash, e4]⟩

theorem formatProxyURL_injective_witness :
    '/' ∉ ("cluster-a" : String).data ∧
    formatProxyURL sampleConfig "cluster-a" "/api/v1/pods" =
      formatProxyURL sampleConfig "cluster-a" "api/v1/pods" ∧
    ("cluster-a" = "cluster-a" ∧
      stripLeadingSlash "/api/v1/pods" = stripLeadingSlash "api/v1/pods" ∧
      strings.TrimPrefix "/api/v1/pods" "/" = strings.TrimPrefix "api/v1/pods" "/") :=
  ⟨by decide, by decide,
    formatProxyURL_injective sampleConfig "cluster-a" "cluster-a" "/api/v1/pods"
      "api/v1/pods" (by decide) (by decide) (by decide)⟩

end multicluster
